import Mathlib

/-!
Verification of the HTTP authentication subsystem of django-rest-interface
(`django_restapi/authentication.py`).

Python 2 strings are modelled as Lean `String`s (byte strings over code
points `< 256` where byte-level behaviour matters).  Functions that can
raise an exception that escapes to the caller return `Option`/`Except`
values, `none`/`.error ()` standing for a propagated exception.
-/

/-- Python-2 whitespace characters removed by `str.strip()`. -/
def isPySpace (c : Char) : Bool :=
  c = ' ' || c = '\t' || c = '\n' || c = '\r' || c = '\x0b' || c = '\x0c'

/-- `l.dropWhile isPySpace` from both ends: Python `str.strip()`. -/
def pyStrip (l : List Char) : List Char :=
  ((l.dropWhile isPySpace).reverse.dropWhile isPySpace).reverse

/-- Python `str.lower()` on byte strings: maps `A`-`Z` to `a`-`z`. -/
def pyLowerChar (c : Char) : Char :=
  if 65 ≤ c.toNat ∧ c.toNat ≤ 90 then Char.ofNat (c.toNat + 32) else c

/-- Python `str.lower()`. -/
def pyLower (l : List Char) : List Char := l.map pyLowerChar

/-- Python `s.split(sep, 1)` when `sep` is a single character, in the case
where the result is unpacked into exactly two variables: `none` models the
`ValueError` raised when `sep` does not occur in `s`. -/
def splitFirst (sep : Char) : List Char → Option (List Char × List Char)
  | [] => none
  | c :: cs =>
    if c = sep then some ([], cs)
    else (splitFirst sep cs).map (fun p => (c :: p.1, p.2))

/-- Helper for `splitCommaSpace`: accumulates the current item (reversed). -/
def splitCommaSpaceGo : List Char → List Char → List (List Char)
  | acc, [] => [acc.reverse]
  | acc, ',' :: ' ' :: rest => acc.reverse :: splitCommaSpaceGo [] rest
  | acc, c :: rest => splitCommaSpaceGo (c :: acc) rest

/-- Python `s.split(", ")`: split on each non-overlapping occurrence of the
two-character separator, left to right. -/
def splitCommaSpace (l : List Char) : List (List Char) :=
  splitCommaSpaceGo [] l

/-- Does `needle` occur at the start of `hay`? -/
def startsWithList : List Char → List Char → Bool
  | [], _ => true
  | _ :: _, [] => false
  | a :: as, b :: bs => a = b && startsWithList as bs

/-- Python `needle in hay` for strings: substring containment. -/
def pyIn : List Char → List Char → Bool
  | n, [] => startsWithList n []
  | n, h :: hs => startsWithList n (h :: hs) || pyIn n hs

/-- Python 2 byte-string `<=`: lexicographic comparison by byte value. -/
def pyStrLe : List Char → List Char → Bool
  | [], _ => true
  | _ :: _, [] => false
  | a :: as, b :: bs =>
    if a.toNat < b.toNat then true
    else if b.toNat < a.toNat then false
    else pyStrLe as bs

/-- Python 2 `nc <= pnc` where `pnc` may be `None`: in CPython 2 any string
compares strictly greater than `None`, so `nc <= None` is `False`. -/
def pyLeOpt (nc : String) : Option String → Bool
  | none => false
  | some s => pyStrLe nc.data s.data

/-- Lookup in a Python dict modelled as an association list (`d.get(k)` /
`d[k]`). -/
def dictGet {α : Type} (d : List (String × α)) (k : String) : Option α :=
  (d.find? (fun p => p.1 = k)).map (fun p => p.2)

/-- Python `d[k] = v`: update in place at the entry for `k` if present
(keeping its position), else append a new entry. -/
def dictInsert {α : Type} : List (String × α) → String → α → List (String × α)
  | [], k, v => [(k, v)]
  | p :: t, k, v => if p.1 = k then (k, v) :: t else p :: dictInsert t k v

/-- Python `if k in d: del d[k]`: remove the entry for `k` (no-op when
absent). -/
def dictErase {α : Type} (d : List (String × α)) (k : String) :
    List (String × α) :=
  d.filter (fun p => ¬ p.1 = k)

/-- The slice of a WSGI request consumed by the authenticators:
`request.method`, `META['SCRIPT_NAME']`, `META['PATH_INFO']` and
`META.get('HTTP_AUTHORIZATION')` (absent header modelled as `none`). -/
structure Request where
  method : String
  scriptName : String
  pathInfo : String
  httpAuthorization : Option String

/-- The base64 alphabet: maps a six-bit value to its character. -/
def sixToChar (n : Nat) : Char :=
  if n < 26 then Char.ofNat (65 + n)
  else if n < 52 then Char.ofNat (97 + (n - 26))
  else if n < 62 then Char.ofNat (48 + (n - 52))
  else if n = 62 then '+'
  else '/'

/-- Partial inverse of the base64 alphabet. -/
def charToSix (c : Char) : Option Nat :=
  let n := c.toNat
  if 65 ≤ n ∧ n ≤ 90 then some (n - 65)
  else if 97 ≤ n ∧ n ≤ 122 then some (26 + (n - 97))
  else if 48 ≤ n ∧ n ≤ 57 then some (52 + (n - 48))
  else if n = 43 then some 62
  else if n = 47 then some 63
  else none

/-- Standard base64 encoding of a byte string (bytes are `Char`s with code
point `< 256`), as produced by the client for the Basic scheme. -/
def encodeB64 : List Char → List Char
  | [] => []
  | [a] =>
    [sixToChar (a.toNat / 4), sixToChar (a.toNat % 4 * 16), '=', '=']
  | [a, b] =>
    [sixToChar (a.toNat / 4), sixToChar (a.toNat % 4 * 16 + b.toNat / 16),
     sixToChar (b.toNat % 16 * 4), '=']
  | a :: b :: c :: rest =>
    sixToChar (a.toNat / 4) :: sixToChar (a.toNat % 4 * 16 + b.toNat / 16) ::
    sixToChar (b.toNat % 16 * 4 + c.toNat / 64) :: sixToChar (c.toNat % 64) ::
    encodeB64 rest

/-- Model of CPython 2 `str.decode('base64')` (`binascii.a2b_base64`):
decodes four-character groups, handling `=` padding; `none` models the
`binascii.Error` raised on invalid input such as incorrect padding. -/
def decodeB64 : List Char → Option (List Char)
  | [] => some []
  | c0 :: c1 :: c2 :: c3 :: rest =>
    match charToSix c0, charToSix c1 with
    | some s0, some s1 =>
      if c2 = '=' then
        if c3 = '=' ∧ rest = [] then some [Char.ofNat (s0 * 4 + s1 / 16)]
        else none
      else
        match charToSix c2 with
        | some s2 =>
          if c3 = '=' then
            if rest = [] then
              some [Char.ofNat (s0 * 4 + s1 / 16),
                    Char.ofNat (s1 % 16 * 16 + s2 / 4)]
            else none
          else
            match charToSix c3, decodeB64 rest with
            | some s3, some ds =>
              some (Char.ofNat (s0 * 4 + s1 / 16) ::
                    Char.ofNat (s1 % 16 * 16 + s2 / 4) ::
                    Char.ofNat (s2 % 4 * 64 + s3) :: ds)
            | _, _ => none
        | none => none
    | _, _ => none
  | _ => none

/-- `HttpBasicAuthentication`: realm plus the injected `authfunc`
credential check (username, password → accepted?). -/
structure HttpBasicAuthentication where
  realm : String
  authfunc : String → String → Bool

/-- `HttpBasicAuthentication.is_authenticated`.  `some b` is a normal
boolean return; `none` models an exception escaping to the caller (the
header-unpacking `ValueError`, a `binascii` decode error, or the
colon-split `ValueError`, none of which the source catches). -/
def HttpBasicAuthentication.is_authenticated
    (self : HttpBasicAuthentication) (request : Request) : Option Bool :=
  match request.httpAuthorization with
  | none => some false
  | some header =>
    match splitFirst ' ' header.data with
    | none => none
    | some (authmeth, auth) =>
      if pyLower authmeth ≠ "basic".data then some false
      else
        match decodeB64 (pyStrip auth) with
        | none => none
        | some dec =>
          match splitFirst ':' dec with
          | none => none
          | some (username, password) =>
            some (self.authfunc ⟨username⟩ ⟨password⟩)

/-- The nonce table `self.nonce`: maps a nonce value either to `none`
(Python `None`: issued, never used) or to `some nc` (last accepted
counter). -/
abbrev NonceStore := List (String × Option String)

/-- `HttpDigestAuthentication`: realm, the injected `authfunc`
(called with realm and username, returning the HA1 hash; `none` models
the provider raising), and the nonce table. -/
structure HttpDigestAuthentication where
  realm : String
  authfunc : String → String → Option String
  nonce : NonceStore

/-- The fields extracted from the parsed `Authorization` parameter map. -/
structure DigestFields where
  username : String
  authpath : String
  nonce : String
  realm : String
  response : String
  qop : String
  cnonce : String
  nc : String
  deriving DecidableEq

/-- The parameter-parsing loop (lines 120-123): split on `", "`, split each
item at the first `=`, strip both parts, delete `"` characters from the
value, and assign into the dict.  `none` models the uncaught `ValueError`
when an item contains no `=` (this loop runs outside the `try:` block). -/
def parsePairsGo : List (List Char) → List (String × String) →
    Option (List (String × String))
  | [], amap => some amap
  | itm :: rest, amap =>
    match splitFirst '=' itm with
    | none => none
    | some (k, v) =>
      parsePairsGo rest
        (dictInsert amap ⟨pyStrip k⟩ ⟨(pyStrip v).filter (fun c => c ≠ '"')⟩)

/-- Parses the Digest `Authorization` parameters into the `amap` dict. -/
def parseAuthPairs (auth : List Char) : Option (List (String × String)) :=
  parsePairsGo (splitCommaSpace auth) []

/-- Python `authpath.split("?", 1)[0]`: the URI up to the query string. -/
def takeBeforeQuery (s : String) : String :=
  ⟨s.data.takeWhile (fun c => c ≠ '?')⟩

/-- The guarded section (the `try:` block, lines 124-139): dict lookups,
the URI-containment and realm assertions, the qop checks.  `none` models
any exception, which the blanket `except:` turns into `return False`. -/
def extractFields (amap : List (String × String)) (fullpath realm0 : String) :
    Option DigestFields :=
  match dictGet amap "username", dictGet amap "uri", dictGet amap "nonce",
        dictGet amap "realm", dictGet amap "response" with
  | some username, some authpath, some nonce, some realm, some response =>
    if pyIn (takeBeforeQuery authpath).data fullpath.data then
      if realm = realm0 then
        let qop := (dictGet amap "qop").getD ""
        let cnonce := (dictGet amap "cnonce").getD ""
        let nc := (dictGet amap "nc").getD "00000000"
        if qop ≠ "" then
          if qop = "auth" then
            if nonce ≠ "" ∧ nc ≠ "" then
              some ⟨username, authpath, nonce, realm, response, qop, cnonce, nc⟩
            else none
          else none
        else some ⟨username, authpath, nonce, realm, response, qop, cnonce, nc⟩
      else none
    else none
  | _, _, _, _, _ => none

/-- Line 150: `pnc = self.nonce.get(nonce, '00000000')`. -/
def readLastNC (store : NonceStore) (nonce : String) : Option String :=
  match dictGet store nonce with
  | none => some "00000000"
  | some v => v

/-- Lines 151-155: compare the presented `nc` against the previously read
counter; on failure delete the nonce, on success record `nc`. -/
def commitNC (store : NonceStore) (nonce nc : String) (pnc : Option String) :
    Bool × NonceStore :=
  if pyLeOpt nc pnc then (false, dictErase store nonce)
  else (true, dictInsert store nonce (some nc))

/-- Lines 150-155 run atomically: read the stored counter, then commit. -/
def counterCheck (store : NonceStore) (nonce nc : String) : Bool × NonceStore :=
  commitNC store nonce nc (readLastNC store nonce)

/-- `HttpDigestAuthentication.is_authenticated`.  Returns
`.ok (verdict, updated nonce store)`; `.error ()` models an exception
escaping to the caller (header-unpacking `ValueError`, parameter items
without `=`, or the credential provider raising — all outside the `try:`
block).  `md5hex` is the ambient `md5(...).hexdigest()` library function. -/
def HttpDigestAuthentication.is_authenticated
    (self : HttpDigestAuthentication) (md5hex : String → String)
    (request : Request) : Except Unit (Bool × NonceStore) :=
  match request.httpAuthorization with
  | none => .ok (false, self.nonce)
  | some header =>
    let fullpath := request.scriptName ++ request.pathInfo
    match splitFirst ' ' header.data with
    | none => .error ()
    | some (authmeth, auth) =>
      if pyLower authmeth ≠ "digest".data then .ok (false, self.nonce)
      else
        match parseAuthPairs auth with
        | none => .error ()
        | some amap =>
          match extractFields amap fullpath self.realm with
          | none => .ok (false, self.nonce)
          | some f =>
            match self.authfunc f.realm f.username with
            | none => .error ()
            | some ha1 =>
              let ha2 := md5hex (request.method ++ ":" ++ fullpath)
              let chk :=
                if f.qop ≠ "" then
                  ha1 ++ ":" ++ f.nonce ++ ":" ++ f.nc ++ ":" ++ f.cnonce ++
                    ":" ++ f.qop ++ ":" ++ ha2
                else ha1 ++ ":" ++ f.nonce ++ ":" ++ ha2
              if f.response ≠ md5hex chk then
                .ok (false, dictErase self.nonce f.nonce)
              else .ok (counterCheck self.nonce f.nonce f.nc)

/-- The challenge response: status, body and the `WWW-Authenticate`
header. -/
structure ChallengeResponse where
  statusCode : Nat
  body : String
  wwwAuthenticate : String

/-- Renders `k="v"` parameter pairs joined by `", "`. -/
def joinParts : List (String × String) → String
  | [] => ""
  | [(k, v)] => k ++ "=\"" ++ v ++ "\""
  | (k, v) :: rest => k ++ "=\"" ++ v ++ "\"" ++ ", " ++ joinParts rest

/-- `HttpDigestAuthentication.challenge`: generates the nonce and opaque
values from the current time and a random value (`t1`/`r1`, `t2`/`r2` are
the rendered `time.time()` / `random.random()` inputs), records the nonce
with no counter, and builds the 401 response. -/
def HttpDigestAuthentication.challenge
    (self : HttpDigestAuthentication) (md5hex : String → String)
    (t1 r1 t2 r2 : String) (stale : String) :
    ChallengeResponse × NonceStore :=
  let nonceVal := md5hex (t1 ++ ":" ++ r1)
  let opq := md5hex (t2 ++ ":" ++ r2)
  let store := dictInsert self.nonce nonceVal none
  let parts := [("realm", self.realm), ("qop", "auth"), ("nonce", nonceVal),
                ("opaque", opq)] ++
               (if stale ≠ "" then [("stale", "true")] else [])
  (⟨401, "Authorization Required", "Digest " ++ joinParts parts⟩, store)

/-- Is `s` a 32-character lowercase hex string (the shape of every
`md5(...).hexdigest()` result)? -/
def isHex32 (s : String) : Bool :=
  s.data.length = 32 &&
  s.data.all (fun c =>
    (48 ≤ c.toNat && c.toNat ≤ 57) || (97 ≤ c.toNat && c.toNat ≤ 102))

/-- Two `is_authenticated` calls racing on the same nonce, serialized: the
second call's read happens after the first call's write. -/
def raceSerial (store : NonceStore) (nonce nc : String) :
    Bool × Bool × NonceStore :=
  let r1 := counterCheck store nonce nc
  let r2 := counterCheck r1.2 nonce nc
  (r1.1, r2.1, r2.2)

/-- Two `is_authenticated` calls racing on the same nonce, overlapped:
both reads of `pnc` happen before either conditional write (the
interleaving R1 R2 W1 W2 of the unguarded read-then-conditional-write). -/
def raceOverlapped (store : NonceStore) (nonce nc : String) :
    Bool × Bool × NonceStore :=
  let p1 := readLastNC store nonce
  let p2 := readLastNC store nonce
  let r1 := commitNC store nonce nc p1
  let r2 := commitNC r1.2 nonce nc p2
  (r1.1, r2.1, r2.2)

/-- The check string of step 8 (RFC 2617): what the source hashes and
compares against the client-presented `response`. -/
def expectedCheck (md5hex : String → String) (ha1 : String) (f : DigestFields)
    (method fullpath : String) : String :=
  if f.qop ≠ "" then
    ha1 ++ ":" ++ f.nonce ++ ":" ++ f.nc ++ ":" ++ f.cnonce ++ ":" ++ f.qop ++
      ":" ++ md5hex (method ++ ":" ++ fullpath)
  else ha1 ++ ":" ++ f.nonce ++ ":" ++ md5hex (method ++ ":" ++ fullpath)

deriving instance DecidableEq for Except

/-- Concrete stand-in for `md5(...).hexdigest()` in closed evaluations. -/
def md5c (s : String) : String := "#" ++ s

/-- The credential provider used in closed evaluations: HA1 is `"A"`. -/
def afA : String → String → Option String := fun _ _ => some "A"

/-- The Digest `Authorization` parameter string presenting nonce `n1`,
counter `00000001`, and the response that `md5c`/`afA` expect for
`GET` on path `/a` in realm `r`. -/
def auth1 : String :=
  "username=\"u\", realm=\"r\", nonce=\"n1\", uri=\"/a\", " ++
  "response=\"#A:n1:00000001:c:auth:#GET:/a\", qop=\"auth\", " ++
  "cnonce=\"c\", nc=\"00000001\""

/-- `auth1` with counter `00000002` and its matching response. -/
def auth2 : String :=
  "username=\"u\", realm=\"r\", nonce=\"n1\", uri=\"/a\", " ++
  "response=\"#A:n1:00000002:c:auth:#GET:/a\", qop=\"auth\", " ++
  "cnonce=\"c\", nc=\"00000002\""

/-- `auth1` with a response that matches no expected digest. -/
def authBad : String :=
  "username=\"u\", realm=\"r\", nonce=\"n1\", uri=\"/a\", " ++
  "response=\"WRONG\", qop=\"auth\", cnonce=\"c\", nc=\"00000001\""

/-- A concrete digest request carrying `auth1`. -/
def reqNC1 : Request := ⟨"GET", "", "/a", some ("Digest " ++ auth1)⟩

/-- A concrete digest request carrying `auth2`. -/
def reqNC2 : Request := ⟨"GET", "", "/a", some ("Digest " ++ auth2)⟩

/-- A concrete digest request carrying `authBad`. -/
def reqBad : Request := ⟨"GET", "", "/a", some ("Digest " ++ authBad)⟩

/-- The parameter dict that parsing `auth1` produces. -/
def amap1 : List (String × String) :=
  [("username", "u"), ("realm", "r"), ("nonce", "n1"), ("uri", "/a"),
   ("response", "#A:n1:00000001:c:auth:#GET:/a"), ("qop", "auth"),
   ("cnonce", "c"), ("nc", "00000001")]

/-- The parameter dict that parsing `auth2` produces. -/
def amap2 : List (String × String) :=
  [("username", "u"), ("realm", "r"), ("nonce", "n1"), ("uri", "/a"),
   ("response", "#A:n1:00000002:c:auth:#GET:/a"), ("qop", "auth"),
   ("cnonce", "c"), ("nc", "00000002")]

/-- The parameter dict that parsing `authBad` produces. -/
def amapBad : List (String × String) :=
  [("username", "u"), ("realm", "r"), ("nonce", "n1"), ("uri", "/a"),
   ("response", "WRONG"), ("qop", "auth"), ("cnonce", "c"),
   ("nc", "00000001")]

/-- The fields the guarded section extracts from `amap1`. -/
def f1 : DigestFields :=
  ⟨"u", "/a", "n1", "r", "#A:n1:00000001:c:auth:#GET:/a", "auth", "c",
   "00000001"⟩

/-- The fields the guarded section extracts from `amap2`. -/
def f2 : DigestFields :=
  ⟨"u", "/a", "n1", "r", "#A:n1:00000002:c:auth:#GET:/a", "auth", "c",
   "00000002"⟩

/-- The fields the guarded section extracts from `amapBad`. -/
def fBad : DigestFields :=
  ⟨"u", "/a", "n1", "r", "WRONG", "auth", "c", "00000001"⟩

/-- A fixed 32-hex-character digest value used as a constant md5 stand-in. -/
def hex32c : String := "0123456789abcdef0123456789abcdef"

/-- A constant md5 stand-in whose outputs are all 32 hex characters. -/
def md5h : String → String := fun _ => hex32c

/-- The credential provider accepting exactly the username `a:b`. -/
def afColon : String → String → Bool := fun u _ => u == "a:b"

/-- A credential provider that always raises (its call propagates). -/
def afNone : String → String → Option String := fun _ _ => none

theorem dictGet_insert_self {α : Type} (d : List (String × α)) (k : String)
    (v : α) : dictGet (dictInsert d k v) k = some v := by
  induction d with
  | nil => simp [dictInsert, dictGet, List.find?]
  | cons p t ih =>
    by_cases hp : p.1 = k
    · simp [dictInsert, hp, dictGet, List.find?]
    · simpa [dictInsert, hp, dictGet, List.find?] using ih

theorem dictInsert_length_of_absent {α : Type} (d : List (String × α))
    (k : String) (v : α) (h : dictGet d k = none) :
    (dictInsert d k v).length = d.length + 1 := by
  induction d with
  | nil => simp [dictInsert]
  | cons p t ih =>
    by_cases hp : p.1 = k
    · simp [dictGet, List.find?, hp] at h
    · simp only [dictGet, List.find?, hp, decide_eq_true_eq] at h ih
      simp [dictInsert, hp, dictGet, ih h]

theorem dictGet_erase_self {α : Type} (d : List (String × α)) (k : String) :
    dictGet (dictErase d k) k = none := by
  induction d with
  | nil => simp [dictErase, dictGet, List.find?]
  | cons p t ih =>
    by_cases hp : p.1 = k
    · have h1 : dictErase (p :: t) k = dictErase t k := by simp [dictErase, hp]
      rw [h1]; exact ih
    · have h1 : dictErase (p :: t) k = p :: dictErase t k := by
        simp [dictErase, hp]
      rw [h1]
      simp only [dictGet, List.find?, hp, decide_eq_true_eq]
      simpa [dictGet, List.find?, hp] using ih

theorem dictGet_erase_ne {α : Type} (d : List (String × α)) (k k' : String)
    (h : k' ≠ k) : dictGet (dictErase d k) k' = dictGet d k' := by
  induction d with
  | nil => rfl
  | cons p t ih =>
    by_cases hp : p.1 = k
    · have h1 : dictErase (p :: t) k = dictErase t k := by simp [dictErase, hp]
      have hp' : ¬ p.1 = k' := by rw [hp]; exact fun e => h e.symm
      have h2 : dictGet (p :: t) k' = dictGet t k' := by
        simp [dictGet, List.find?, hp']
      rw [h1, h2, ih]
    · have h1 : dictErase (p :: t) k = p :: dictErase t k := by
        simp [dictErase, hp]
      by_cases hq : p.1 = k'
      · simp [h1, dictGet, List.find?, hq]
      · simp only [h1, dictGet, List.find?, hq, decide_eq_true_eq]
        simpa [dictGet, List.find?, hq] using ih

theorem pyStrLe_refl (l : List Char) : pyStrLe l l = true := by
  induction l with
  | nil => rfl
  | cons a as ih => simp [pyStrLe, ih]

theorem charToSix_sixToChar : ∀ n, n < 64 → charToSix (sixToChar n) = some n := by
  decide

theorem sixToChar_ne_pad : ∀ n, n < 64 → ¬ sixToChar n = '=' := by decide

theorem sixToChar_not_space : ∀ n, n < 64 → isPySpace (sixToChar n) = false := by
  decide

theorem decodeB64_encodeB64 :
    ∀ l : List Char, (∀ c ∈ l, c.toNat < 256) →
      decodeB64 (encodeB64 l) = some l
  | [], _ => rfl
  | [a], h => by
    have ha : a.toNat < 256 := h a (by simp)
    have h1 : charToSix (sixToChar (a.toNat / 4)) = some (a.toNat / 4) :=
      charToSix_sixToChar _ (by omega)
    have h2 : charToSix (sixToChar (a.toNat % 4 * 16)) =
        some (a.toNat % 4 * 16) := charToSix_sixToChar _ (by omega)
    simp [encodeB64, decodeB64, h1, h2]
    conv_rhs => rw [← Char.ofNat_toNat a]
    congr 1
    omega
  | [a, b], h => by
    have ha : a.toNat < 256 := h a (by simp)
    have hb : b.toNat < 256 := h b (by simp)
    have h1 : charToSix (sixToChar (a.toNat / 4)) = some (a.toNat / 4) :=
      charToSix_sixToChar _ (by omega)
    have h2 : charToSix (sixToChar (a.toNat % 4 * 16 + b.toNat / 16)) =
        some (a.toNat % 4 * 16 + b.toNat / 16) :=
      charToSix_sixToChar _ (by omega)
    have h3 : charToSix (sixToChar (b.toNat % 16 * 4)) =
        some (b.toNat % 16 * 4) := charToSix_sixToChar _ (by omega)
    have hne : ¬ sixToChar (b.toNat % 16 * 4) = '=' :=
      sixToChar_ne_pad _ (by omega)
    simp [encodeB64, decodeB64, h1, h2, h3, hne]
    constructor
    · conv_rhs => rw [← Char.ofNat_toNat a]
      congr 1
      omega
    · conv_rhs => rw [← Char.ofNat_toNat b]
      congr 1
      omega
  | a :: b :: c :: rest, h => by
    have ha : a.toNat < 256 := h a (by simp)
    have hb : b.toNat < 256 := h b (by simp)
    have hc : c.toNat < 256 := h c (by simp)
    have h1 : charToSix (sixToChar (a.toNat / 4)) = some (a.toNat / 4) :=
      charToSix_sixToChar _ (by omega)
    have h2 : charToSix (sixToChar (a.toNat % 4 * 16 + b.toNat / 16)) =
        some (a.toNat % 4 * 16 + b.toNat / 16) :=
      charToSix_sixToChar _ (by omega)
    have h3 : charToSix (sixToChar (b.toNat % 16 * 4 + c.toNat / 64)) =
        some (b.toNat % 16 * 4 + c.toNat / 64) :=
      charToSix_sixToChar _ (by omega)
    have h4 : charToSix (sixToChar (c.toNat % 64)) = some (c.toNat % 64) :=
      charToSix_sixToChar _ (by omega)
    have hne3 : ¬ sixToChar (b.toNat % 16 * 4 + c.toNat / 64) = '=' :=
      sixToChar_ne_pad _ (by omega)
    have hne4 : ¬ sixToChar (c.toNat % 64) = '=' :=
      sixToChar_ne_pad _ (by omega)
    have ih : decodeB64 (encodeB64 rest) = some rest :=
      decodeB64_encodeB64 rest (fun x hx => h x (by simp [hx]))
    simp [encodeB64, decodeB64, h1, h2, h3, h4, hne3, hne4, ih]
    refine ⟨?_, ?_, ?_⟩
    · conv_rhs => rw [← Char.ofNat_toNat a]
      congr 1
      omega
    · conv_rhs => rw [← Char.ofNat_toNat b]
      congr 1
      omega
    · conv_rhs => rw [← Char.ofNat_toNat c]
      congr 1
      omega

theorem dropWhile_eq_self_of (p : Char → Bool) :
    ∀ l : List Char, (∀ c ∈ l, p c = false) → l.dropWhile p = l
  | [], _ => rfl
  | c :: t, h => by simp [List.dropWhile, h c (by simp)]

theorem pyStrip_eq_self (l : List Char) (h : ∀ c ∈ l, isPySpace c = false) :
    pyStrip l = l := by
  unfold pyStrip
  rw [dropWhile_eq_self_of _ l h,
      dropWhile_eq_self_of _ l.reverse (fun c hc => h c (by simpa using hc)),
      List.reverse_reverse]

theorem encodeB64_not_space :
    ∀ l : List Char, (∀ c ∈ l, c.toNat < 256) →
      ∀ x ∈ encodeB64 l, isPySpace x = false
  | [], _, x, hx => by simp [encodeB64] at hx
  | [a], h, x, hx => by
    have ha : a.toNat < 256 := h a (by simp)
    simp only [encodeB64, List.mem_cons, List.not_mem_nil, or_false] at hx
    rcases hx with rfl | rfl | rfl | rfl
    · exact sixToChar_not_space _ (by omega)
    · exact sixToChar_not_space _ (by omega)
    · decide
    · decide
  | [a, b], h, x, hx => by
    have ha : a.toNat < 256 := h a (by simp)
    have hb : b.toNat < 256 := h b (by simp)
    simp only [encodeB64, List.mem_cons, List.not_mem_nil, or_false] at hx
    rcases hx with rfl | rfl | rfl | rfl
    · exact sixToChar_not_space _ (by omega)
    · exact sixToChar_not_space _ (by omega)
    · exact sixToChar_not_space _ (by omega)
    · decide
  | a :: b :: c :: rest, h, x, hx => by
    have ha : a.toNat < 256 := h a (by simp)
    have hb : b.toNat < 256 := h b (by simp)
    have hc : c.toNat < 256 := h c (by simp)
    simp only [encodeB64, List.mem_cons] at hx
    rcases hx with rfl | rfl | rfl | rfl | hx
    · exact sixToChar_not_space _ (by omega)
    · exact sixToChar_not_space _ (by omega)
    · exact sixToChar_not_space _ (by omega)
    · exact sixToChar_not_space _ (by omega)
    · exact encodeB64_not_space rest (fun y hy => h y (by simp [hy])) x hx

theorem splitFirst_append_sep (sep : Char) :
    ∀ u v : List Char, sep ∉ u → splitFirst sep (u ++ sep :: v) = some (u, v)
  | [], v, _ => by simp [splitFirst]
  | c :: u, v, h => by
    have hc : ¬ c = sep := fun e => h (by simp [e])
    have := splitFirst_append_sep sep u v (fun e => h (by simp [e]))
    simp [splitFirst, hc, this]

theorem digest_is_authenticated_eq (A : HttpDigestAuthentication)
    (md5hex : String → String) (req : Request) (hdr : String)
    (am auth : List Char) (amap : List (String × String)) (f : DigestFields)
    (ha1 : String)
    (h1 : req.httpAuthorization = some hdr)
    (h2 : splitFirst ' ' hdr.data = some (am, auth))
    (h3 : pyLower am = "digest".data)
    (h4 : parseAuthPairs auth = some amap)
    (h5 : extractFields amap (req.scriptName ++ req.pathInfo) A.realm = some f)
    (h6 : A.authfunc f.realm f.username = some ha1) :
    A.is_authenticated md5hex req =
      if f.response =
          md5hex (expectedCheck md5hex ha1 f req.method
            (req.scriptName ++ req.pathInfo)) then
        .ok (counterCheck A.nonce f.nonce f.nc)
      else .ok (false, dictErase A.nonce f.nonce) := by
  unfold HttpDigestAuthentication.is_authenticated expectedCheck
  rw [h1]
  simp only [h2, h3, h4, h5, h6, ne_eq, not_true_eq_false, if_false]
  by_cases hr : f.response =
      md5hex (if ¬ f.qop = "" then
        ha1 ++ ":" ++ f.nonce ++ ":" ++ f.nc ++ ":" ++ f.cnonce ++ ":" ++
          f.qop ++ ":" ++ md5hex (req.method ++ ":" ++
            (req.scriptName ++ req.pathInfo))
      else ha1 ++ ":" ++ f.nonce ++ ":" ++
        md5hex (req.method ++ ":" ++ (req.scriptName ++ req.pathInfo)))
  · simp [hr]
  · simp [hr]

/-- C4: the expected response digest is computed with HA1 obtained from the
credential provider called with (realm, username), HA2 = MD5(method ":"
fullPath) where fullPath is the script path concatenated with the path
info, and the expected response MD5(HA1 ":" nonce ":" nc ":" cnonce ":"
qop ":" HA2) when qop is present, MD5(HA1 ":" nonce ":" HA2) otherwise;
the client-presented response field is compared to it by string
equality. -/
theorem claim_C4_response_digest_formula (A : HttpDigestAuthentication)
    (md5hex : String → String) (req : Request) (hdr : String)
    (am auth : List Char) (amap : List (String × String)) (f : DigestFields)
    (ha1 : String)
    (h1 : req.httpAuthorization = some hdr)
    (h2 : splitFirst ' ' hdr.data = some (am, auth))
    (h3 : pyLower am = "digest".data)
    (h4 : parseAuthPairs auth = some amap)
    (h5 : extractFields amap (req.scriptName ++ req.pathInfo) A.realm = some f)
    (h6 : A.authfunc f.realm f.username = some ha1) :
    (f.qop ≠ "" →
      A.is_authenticated md5hex req =
        if f.response = md5hex (ha1 ++ ":" ++ f.nonce ++ ":" ++ f.nc ++ ":" ++
            f.cnonce ++ ":" ++ f.qop ++ ":" ++
            md5hex (req.method ++ ":" ++ (req.scriptName ++ req.pathInfo)))
        then .ok (counterCheck A.nonce f.nonce f.nc)
        else .ok (false, dictErase A.nonce f.nonce)) ∧
    (f.qop = "" →
      A.is_authenticated md5hex req =
        if f.response = md5hex (ha1 ++ ":" ++ f.nonce ++ ":" ++
            md5hex (req.method ++ ":" ++ (req.scriptName ++ req.pathInfo)))
        then .ok (counterCheck A.nonce f.nonce f.nc)
        else .ok (false, dictErase A.nonce f.nonce)) := by
  constructor <;> intro hq <;>
    rw [digest_is_authenticated_eq A md5hex req hdr am auth amap f ha1
        h1 h2 h3 h4 h5 h6] <;>
    simp [expectedCheck, hq]

/-- C3: with a correct response digest and the nonce present in the store
with recorded counter `last`, the counter check is the Python string
comparison `nc <= last`: not strictly greater fails and removes the nonce,
strictly greater succeeds and updates the stored counter to `nc`. -/
theorem claim_C3_counter_is_string_comparison (A : HttpDigestAuthentication)
    (md5hex : String → String) (req : Request) (hdr : String)
    (am auth : List Char) (amap : List (String × String)) (f : DigestFields)
    (ha1 last : String)
    (h1 : req.httpAuthorization = some hdr)
    (h2 : splitFirst ' ' hdr.data = some (am, auth))
    (h3 : pyLower am = "digest".data)
    (h4 : parseAuthPairs auth = some amap)
    (h5 : extractFields amap (req.scriptName ++ req.pathInfo) A.realm = some f)
    (h6 : A.authfunc f.realm f.username = some ha1)
    (hresp : f.response = md5hex (expectedCheck md5hex ha1 f req.method
      (req.scriptName ++ req.pathInfo)))
    (hstore : dictGet A.nonce f.nonce = some (some last)) :
    A.is_authenticated md5hex req =
      if pyStrLe f.nc.data last.data then
        .ok (false, dictErase A.nonce f.nonce)
      else .ok (true, dictInsert A.nonce f.nonce (some f.nc)) := by
  rw [digest_is_authenticated_eq A md5hex req hdr am auth amap f ha1
      h1 h2 h3 h4 h5 h6, if_pos hresp]
  unfold counterCheck readLastNC commitNC
  rw [hstore]
  by_cases hle : pyStrLe f.nc.data last.data = true
  · simp [pyLeOpt, hle]
  · simp [pyLeOpt, hle]

/-- C5: whenever the presented response differs from the computed expected
digest, the nonce is removed from the store (when present), the result is
false, and every other entry of the store is unchanged. -/
theorem claim_C5_mismatch_revokes_nonce (A : HttpDigestAuthentication)
    (md5hex : String → String) (req : Request) (hdr : String)
    (am auth : List Char) (amap : List (String × String)) (f : DigestFields)
    (ha1 : String)
    (h1 : req.httpAuthorization = some hdr)
    (h2 : splitFirst ' ' hdr.data = some (am, auth))
    (h3 : pyLower am = "digest".data)
    (h4 : parseAuthPairs auth = some amap)
    (h5 : extractFields amap (req.scriptName ++ req.pathInfo) A.realm = some f)
    (h6 : A.authfunc f.realm f.username = some ha1)
    (hne : f.response ≠ md5hex (expectedCheck md5hex ha1 f req.method
      (req.scriptName ++ req.pathInfo))) :
    A.is_authenticated md5hex req = .ok (false, dictErase A.nonce f.nonce) ∧
    dictGet (dictErase A.nonce f.nonce) f.nonce = none ∧
    ∀ k, k ≠ f.nonce →
      dictGet (dictErase A.nonce f.nonce) k = dictGet A.nonce k :=
  ⟨by rw [digest_is_authenticated_eq A md5hex req hdr am auth amap f ha1
        h1 h2 h3 h4 h5 h6, if_neg hne],
   dictGet_erase_self A.nonce f.nonce,
   fun k hk => dictGet_erase_ne A.nonce f.nonce k hk⟩

/-- C10: a nonce absent from the store is never rejected for that reason:
with a correct response digest and a presented nc strictly greater (in
Python string order) than "00000000", the request is accepted and the
nonce is inserted with that counter. -/
theorem claim_C10_absent_nonce_accepted (A : HttpDigestAuthentication)
    (md5hex : String → String) (req : Request) (hdr : String)
    (am auth : List Char) (amap : List (String × String)) (f : DigestFields)
    (ha1 : String)
    (h1 : req.httpAuthorization = some hdr)
    (h2 : splitFirst ' ' hdr.data = some (am, auth))
    (h3 : pyLower am = "digest".data)
    (h4 : parseAuthPairs auth = some amap)
    (h5 : extractFields amap (req.scriptName ++ req.pathInfo) A.realm = some f)
    (h6 : A.authfunc f.realm f.username = some ha1)
    (hresp : f.response = md5hex (expectedCheck md5hex ha1 f req.method
      (req.scriptName ++ req.pathInfo)))
    (habs : dictGet A.nonce f.nonce = none)
    (hnc : pyStrLe f.nc.data "00000000".data = false) :
    A.is_authenticated md5hex req =
      .ok (true, dictInsert A.nonce f.nonce (some f.nc)) ∧
    dictGet (dictInsert A.nonce f.nonce (some f.nc)) f.nonce =
      some (some f.nc) := by
  constructor
  · rw [digest_is_authenticated_eq A md5hex req hdr am auth amap f ha1
        h1 h2 h3 h4 h5 h6, if_pos hresp]
    unfold counterCheck readLastNC commitNC
    rw [habs]
    simp [pyLeOpt, hnc]
  · exact dictGet_insert_self A.nonce f.nonce (some f.nc)

/-- C1 (refuted by the code): after a successful use of nonce `n1` with
nc `00000001` and a second, rejected use with the same nc (which revokes
the nonce), a third attempt presenting the same revoked nonce with a
correct response digest is ACCEPTED again — line 150 defaults an absent
nonce's counter to "00000000", so revocation is not terminal and the
exact same request replays successfully. -/
theorem claim_C1_revoked_nonce_replay :
    HttpDigestAuthentication.is_authenticated
      ⟨"r", afA, [("n1", none)]⟩ md5c reqNC1 =
      .ok (true, [("n1", some "00000001")]) ∧
    HttpDigestAuthentication.is_authenticated
      ⟨"r", afA, [("n1", some "00000001")]⟩ md5c reqNC1 =
      .ok (false, []) ∧
    HttpDigestAuthentication.is_authenticated
      ⟨"r", afA, []⟩ md5c reqNC1 =
      .ok (true, [("n1", some "00000001")]) :=
  ⟨by decide, by decide, by decide⟩

/-- Witness for C4 at a concrete input: the digest request `reqNC1` with a
fresh nonce store is accepted, via the qop-present response formula. -/
theorem claim_C4_witness :
    HttpDigestAuthentication.is_authenticated
      ⟨"r", afA, [("n1", none)]⟩ md5c reqNC1 =
      .ok (true, [("n1", some "00000001")]) := by
  have h := (claim_C4_response_digest_formula ⟨"r", afA, [("n1", none)]⟩
    md5c reqNC1 ("Digest " ++ auth1) "Digest".data auth1.data amap1 f1 "A"
    (by decide) (by decide) (by decide) (by decide) (by decide)
    (by decide)).1 (by decide)
  rw [h]
  decide

/-- Witness for C3 at a concrete input: after a successful `nc="00000001"`,
the request `reqNC2` with `nc="00000002"` succeeds and the stored counter
is updated. -/
theorem claim_C3_witness :
    HttpDigestAuthentication.is_authenticated
      ⟨"r", afA, [("n1", some "00000001")]⟩ md5c reqNC2 =
      .ok (true, [("n1", some "00000002")]) := by
  have h := claim_C3_counter_is_string_comparison
    ⟨"r", afA, [("n1", some "00000001")]⟩ md5c reqNC2 ("Digest " ++ auth2)
    "Digest".data auth2.data amap2 f2 "A" "00000001"
    (by decide) (by decide) (by decide) (by decide) (by decide) (by decide)
    (by decide) (by decide)
  rw [h]
  decide

/-- Witness for C5 at a concrete input: a wrong response on `reqBad`
removes `n1` from the store, returns false, and leaves the other entry. -/
theorem claim_C5_witness :
    HttpDigestAuthentication.is_authenticated
      ⟨"r", afA, [("n1", none), ("n2", some "00000005")]⟩ md5c reqBad =
      .ok (false, [("n2", some "00000005")]) := by
  have h := (claim_C5_mismatch_revokes_nonce
    ⟨"r", afA, [("n1", none), ("n2", some "00000005")]⟩ md5c reqBad
    ("Digest " ++ authBad) "Digest".data authBad.data amapBad fBad "A"
    (by decide) (by decide) (by decide) (by decide) (by decide) (by decide)
    (by decide)).1
  rw [h]
  decide

/-- Witness for C10 at a concrete input: `reqNC1` with an empty nonce
store (its nonce never issued) is accepted and the nonce inserted. -/
theorem claim_C10_witness :
    HttpDigestAuthentication.is_authenticated ⟨"r", afA, []⟩ md5c reqNC1 =
      .ok (true, [("n1", some "00000001")]) := by
  have h := (claim_C10_absent_nonce_accepted ⟨"r", afA, []⟩ md5c reqNC1
    ("Digest " ++ auth1) "Digest".data auth1.data amap1 f1 "A"
    (by decide) (by decide) (by decide) (by decide) (by decide) (by decide)
    (by decide) (by decide) (by decide)).1
  rw [h]
  decide

/-- Counterexample to C2: a Digest header whose parameter part contains no
`=` makes `is_authenticated` raise an uncaught `ValueError` (the parsing
loop runs outside the `try:` block), modelled as `.error ()` — it does not
return the boolean false. -/
theorem claim_C2_counterexample :
    HttpDigestAuthentication.is_authenticated ⟨"r", afA, []⟩ md5c
      ⟨"GET", "", "/a", some "Digest foo"⟩ = .error () := by decide

/-- C2 as amended, case by case: a missing header, a wrong scheme, any
failure of the guarded try-block (missing fields, URI mismatch, realm
mismatch, unsupported qop), a digest mismatch, and a non-increasing
counter all return false; but a header with no space after the scheme, a
parameter item with no `=` (the parsing loop runs outside the try-block),
and an exception from the credential provider (called outside the
try-block) propagate to the caller as exceptions. -/
theorem claim_C2_failures_return_false (A : HttpDigestAuthentication)
    (md5hex : String → String) :
    (∀ req, req.httpAuthorization = none →
      A.is_authenticated md5hex req = .ok (false, A.nonce)) ∧
    (∀ req hdr am auth, req.httpAuthorization = some hdr →
      splitFirst ' ' hdr.data = some (am, auth) →
      pyLower am ≠ "digest".data →
      A.is_authenticated md5hex req = .ok (false, A.nonce)) ∧
    (∀ req hdr, req.httpAuthorization = some hdr →
      splitFirst ' ' hdr.data = none →
      A.is_authenticated md5hex req = .error ()) ∧
    (∀ req hdr am auth, req.httpAuthorization = some hdr →
      splitFirst ' ' hdr.data = some (am, auth) →
      pyLower am = "digest".data →
      parseAuthPairs auth = none →
      A.is_authenticated md5hex req = .error ()) ∧
    (∀ req hdr am auth amap, req.httpAuthorization = some hdr →
      splitFirst ' ' hdr.data = some (am, auth) →
      pyLower am = "digest".data →
      parseAuthPairs auth = some amap →
      extractFields amap (req.scriptName ++ req.pathInfo) A.realm = none →
      A.is_authenticated md5hex req = .ok (false, A.nonce)) ∧
    (∀ req hdr am auth amap f, req.httpAuthorization = some hdr →
      splitFirst ' ' hdr.data = some (am, auth) →
      pyLower am = "digest".data →
      parseAuthPairs auth = some amap →
      extractFields amap (req.scriptName ++ req.pathInfo) A.realm = some f →
      A.authfunc f.realm f.username = none →
      A.is_authenticated md5hex req = .error ()) ∧
    (∀ req hdr am auth amap f ha1, req.httpAuthorization = some hdr →
      splitFirst ' ' hdr.data = some (am, auth) →
      pyLower am = "digest".data →
      parseAuthPairs auth = some amap →
      extractFields amap (req.scriptName ++ req.pathInfo) A.realm = some f →
      A.authfunc f.realm f.username = some ha1 →
      f.response ≠ md5hex (expectedCheck md5hex ha1 f req.method
        (req.scriptName ++ req.pathInfo)) →
      A.is_authenticated md5hex req = .ok (false, dictErase A.nonce f.nonce)) ∧
    (∀ req hdr am auth amap f ha1 last, req.httpAuthorization = some hdr →
      splitFirst ' ' hdr.data = some (am, auth) →
      pyLower am = "digest".data →
      parseAuthPairs auth = some amap →
      extractFields amap (req.scriptName ++ req.pathInfo) A.realm = some f →
      A.authfunc f.realm f.username = some ha1 →
      f.response = md5hex (expectedCheck md5hex ha1 f req.method
        (req.scriptName ++ req.pathInfo)) →
      dictGet A.nonce f.nonce = some (some last) →
      pyStrLe f.nc.data last.data = true →
      A.is_authenticated md5hex req =
        .ok (false, dictErase A.nonce f.nonce)) := by
  refine ⟨?_, ?_, ?_, ?_, ?_, ?_, ?_, ?_⟩
  · intro req h
    unfold HttpDigestAuthentication.is_authenticated
    rw [h]
  · intro req hdr am auth h1 h2 h3
    unfold HttpDigestAuthentication.is_authenticated
    rw [h1]
    simp only [h2]
    rw [if_pos h3]
  · intro req hdr h1 h2
    unfold HttpDigestAuthentication.is_authenticated
    rw [h1]
    simp only [h2]
  · intro req hdr am auth h1 h2 h3 h4
    unfold HttpDigestAuthentication.is_authenticated
    rw [h1]
    simp only [h2]
    rw [if_neg (fun hne => hne h3)]
    simp only [h4]
  · intro req hdr am auth amap h1 h2 h3 h4 h5
    unfold HttpDigestAuthentication.is_authenticated
    rw [h1]
    simp only [h2]
    rw [if_neg (fun hne => hne h3)]
    simp only [h4, h5]
  · intro req hdr am auth amap f h1 h2 h3 h4 h5 h6
    unfold HttpDigestAuthentication.is_authenticated
    rw [h1]
    simp only [h2]
    rw [if_neg (fun hne => hne h3)]
    simp only [h4, h5, h6]
  · intro req hdr am auth amap f ha1 h1 h2 h3 h4 h5 h6 hne
    rw [digest_is_authenticated_eq A md5hex req hdr am auth amap f ha1
        h1 h2 h3 h4 h5 h6, if_neg hne]
  · intro req hdr am auth amap f ha1 last h1 h2 h3 h4 h5 h6 hresp hstore hle
    rw [digest_is_authenticated_eq A md5hex req hdr am auth amap f ha1
        h1 h2 h3 h4 h5 h6, if_pos hresp]
    unfold counterCheck readLastNC commitNC
    rw [hstore]
    simp [pyLeOpt, hle]

/-- Witness for C2 as amended, one concrete input per case: missing
header, Basic scheme, a header with no space, a parameter without `=`, a
realm mismatch, a raising provider, a wrong response, and a replayed
counter. -/
theorem claim_C2_witness :
    HttpDigestAuthentication.is_authenticated ⟨"r", afA, []⟩ md5c
      ⟨"GET", "", "/a", none⟩ = .ok (false, []) ∧
    HttpDigestAuthentication.is_authenticated ⟨"r", afA, []⟩ md5c
      ⟨"GET", "", "/a", some "Basic eHg="⟩ = .ok (false, []) ∧
    HttpDigestAuthentication.is_authenticated ⟨"r", afA, []⟩ md5c
      ⟨"GET", "", "/a", some "Digest"⟩ = .error () ∧
    HttpDigestAuthentication.is_authenticated ⟨"r", afA, []⟩ md5c
      ⟨"GET", "", "/a", some "Digest foo"⟩ = .error () ∧
    HttpDigestAuthentication.is_authenticated ⟨"wrong", afA, []⟩ md5c
      reqNC1 = .ok (false, []) ∧
    HttpDigestAuthentication.is_authenticated ⟨"r", afNone, []⟩ md5c
      reqNC1 = .error () ∧
    HttpDigestAuthentication.is_authenticated ⟨"r", afA, [("n1", none)]⟩
      md5c reqBad = .ok (false, []) ∧
    HttpDigestAuthentication.is_authenticated
      ⟨"r", afA, [("n1", some "00000001")]⟩ md5c reqNC1 =
      .ok (false, []) := by
  refine ⟨?_, ?_, ?_, ?_, ?_, ?_, ?_, ?_⟩
  · exact (claim_C2_failures_return_false ⟨"r", afA, []⟩ md5c).1
      ⟨"GET", "", "/a", none⟩ rfl
  · exact (claim_C2_failures_return_false ⟨"r", afA, []⟩ md5c).2.1
      ⟨"GET", "", "/a", some "Basic eHg="⟩ "Basic eHg=" "Basic".data
      "eHg=".data rfl (by decide) (by decide)
  · exact (claim_C2_failures_return_false ⟨"r", afA, []⟩ md5c).2.2.1
      ⟨"GET", "", "/a", some "Digest"⟩ "Digest" rfl (by decide)
  · exact (claim_C2_failures_return_false ⟨"r", afA, []⟩ md5c).2.2.2.1
      ⟨"GET", "", "/a", some "Digest foo"⟩ "Digest foo" "Digest".data
      "foo".data rfl (by decide) (by decide) (by decide)
  · exact (claim_C2_failures_return_false ⟨"wrong", afA, []⟩ md5c).2.2.2.2.1
      reqNC1 ("Digest " ++ auth1) "Digest".data auth1.data amap1
      rfl (by decide) (by decide) (by decide) (by decide)
  · exact (claim_C2_failures_return_false ⟨"r", afNone, []⟩
      md5c).2.2.2.2.2.1 reqNC1 ("Digest " ++ auth1) "Digest".data
      auth1.data amap1 f1 rfl (by decide) (by decide) (by decide)
      (by decide) (by decide)
  · exact (claim_C2_failures_return_false ⟨"r", afA, [("n1", none)]⟩
      md5c).2.2.2.2.2.2.1 reqBad ("Digest " ++ authBad) "Digest".data
      authBad.data amapBad fBad "A" rfl (by decide) (by decide) (by decide)
      (by decide) (by decide) (by decide)
  · exact (claim_C2_failures_return_false
      ⟨"r", afA, [("n1", some "00000001")]⟩ md5c).2.2.2.2.2.2.2 reqNC1
      ("Digest " ++ auth1) "Digest".data auth1.data amap1 f1 "A" "00000001"
      rfl (by decide) (by decide) (by decide) (by decide) (by decide)
      (by decide) (by decide) (by decide)

/-- Counterexample to C9: under the interleaving in which both calls read
`pnc` before either writes (R1 R2 W1 W2), two racing requests presenting
the same nc against the same fresh nonce BOTH return true — not exactly
one success. -/
theorem claim_C9_counterexample :
    raceOverlapped [("n1", none)] "n1" "00000001" =
      (true, true, [("n1", some "00000001")]) := by decide

/-- C9 as amended: when the two calls are serialized (the second's read of
the stored counter happens after the first's write) and the first
succeeds, the second fails; but under the overlapped interleaving on a
freshly issued nonce both calls succeed — the read-then-conditional-write
is not atomic and the race-safety invariant fails. -/
theorem claim_C9_race_not_atomic :
    (∀ store nonce nc, (counterCheck store nonce nc).1 = true →
      (counterCheck (counterCheck store nonce nc).2 nonce nc).1 = false) ∧
    (∀ store nonce nc, readLastNC store nonce = none →
      (raceOverlapped store nonce nc).1 = true ∧
      (raceOverlapped store nonce nc).2.1 = true) := by
  constructor
  · intro store nonce nc h1
    unfold counterCheck commitNC at h1 ⊢
    by_cases hle : pyLeOpt nc (readLastNC store nonce) = true
    · simp [hle] at h1
    · have hle' : pyLeOpt nc (readLastNC store nonce) = false := by
        revert hle; cases pyLeOpt nc (readLastNC store nonce) <;> simp
      simp only [hle', Bool.false_eq_true, if_false]
      have hread : readLastNC (dictInsert store nonce (some nc)) nonce =
          some nc := by
        unfold readLastNC
        rw [dictGet_insert_self]
      rw [hread]
      simp [pyLeOpt, pyStrLe_refl]
  · intro store nonce nc h
    unfold raceOverlapped commitNC
    rw [h]
    simp [pyLeOpt]

/-- Witness for C9 as amended, at concrete inputs: serialized reuse of the
same nc fails the second call, while the overlapped interleaving yields
two successes. -/
theorem claim_C9_witness :
    (counterCheck (counterCheck [("n1", none)] "n1" "00000001").2 "n1"
      "00000001").1 = false ∧
    (raceOverlapped [("n1", none)] "n1" "00000001").1 = true ∧
    (raceOverlapped [("n1", none)] "n1" "00000001").2.1 = true :=
  ⟨claim_C9_race_not_atomic.1 [("n1", none)] "n1" "00000001" (by decide),
   (claim_C9_race_not_atomic.2 [("n1", none)] "n1" "00000001" (by decide)).1,
   (claim_C9_race_not_atomic.2 [("n1", none)] "n1" "00000001" (by decide)).2⟩

/-- C8: `challenge` returns 401 with body "Authorization Required" and a
`WWW-Authenticate: Digest ...` header carrying exactly realm, qop="auth",
nonce, opaque, plus stale="true" exactly when the stale argument is set;
the nonce and opaque values are 32 hex characters (given that the md5
hexdigest always is), and the nonce is recorded with no counter, growing
the store by one entry when the generated nonce is new. -/
theorem claim_C8_challenge_shape (A : HttpDigestAuthentication)
    (md5hex : String → String) (t1 r1 t2 r2 stale : String)
    (hhex : ∀ s, isHex32 (md5hex s) = true)
    (hfresh : dictGet A.nonce (md5hex (t1 ++ ":" ++ r1)) = none) :
    (A.challenge md5hex t1 r1 t2 r2 stale).1.statusCode = 401 ∧
    (A.challenge md5hex t1 r1 t2 r2 stale).1.body =
      "Authorization Required" ∧
    (A.challenge md5hex t1 r1 t2 r2 stale).1.wwwAuthenticate =
      "Digest " ++ joinParts
        ([("realm", A.realm), ("qop", "auth"),
          ("nonce", md5hex (t1 ++ ":" ++ r1)),
          ("opaque", md5hex (t2 ++ ":" ++ r2))] ++
         (if stale ≠ "" then [("stale", "true")] else [])) ∧
    isHex32 (md5hex (t1 ++ ":" ++ r1)) = true ∧
    isHex32 (md5hex (t2 ++ ":" ++ r2)) = true ∧
    (A.challenge md5hex t1 r1 t2 r2 stale).2 =
      dictInsert A.nonce (md5hex (t1 ++ ":" ++ r1)) none ∧
    dictGet (A.challenge md5hex t1 r1 t2 r2 stale).2
      (md5hex (t1 ++ ":" ++ r1)) = some none ∧
    (A.challenge md5hex t1 r1 t2 r2 stale).2.length = A.nonce.length + 1 :=
  ⟨rfl, rfl, rfl, hhex _, hhex _, rfl,
   dictGet_insert_self A.nonce (md5hex (t1 ++ ":" ++ r1)) none,
   dictInsert_length_of_absent A.nonce (md5hex (t1 ++ ":" ++ r1)) none hfresh⟩

/-- Witness for C8 at concrete inputs, with the stale argument set. -/
theorem claim_C8_witness :
    (HttpDigestAuthentication.challenge ⟨"r", afA, []⟩ md5h "t1" "r1" "t2"
      "r2" "x").1.statusCode = 401 ∧
    (HttpDigestAuthentication.challenge ⟨"r", afA, []⟩ md5h "t1" "r1" "t2"
      "r2" "x").1.body = "Authorization Required" ∧
    (HttpDigestAuthentication.challenge ⟨"r", afA, []⟩ md5h "t1" "r1" "t2"
      "r2" "x").1.wwwAuthenticate =
      "Digest " ++ joinParts
        ([("realm", "r"), ("qop", "auth"),
          ("nonce", md5h ("t1" ++ ":" ++ "r1")),
          ("opaque", md5h ("t2" ++ ":" ++ "r2"))] ++
         (if ("x" : String) ≠ "" then [("stale", "true")] else [])) ∧
    isHex32 (md5h ("t1" ++ ":" ++ "r1")) = true ∧
    isHex32 (md5h ("t2" ++ ":" ++ "r2")) = true ∧
    (HttpDigestAuthentication.challenge ⟨"r", afA, []⟩ md5h "t1" "r1" "t2"
      "r2" "x").2 = dictInsert [] (md5h ("t1" ++ ":" ++ "r1")) none ∧
    dictGet (HttpDigestAuthentication.challenge ⟨"r", afA, []⟩ md5h "t1"
      "r1" "t2" "r2" "x").2 (md5h ("t1" ++ ":" ++ "r1")) = some none ∧
    (HttpDigestAuthentication.challenge ⟨"r", afA, []⟩ md5h "t1" "r1" "t2"
      "r2" "x").2.length = ([] : NonceStore).length + 1 :=
  claim_C8_challenge_shape ⟨"r", afA, []⟩ md5h "t1" "r1" "t2" "r2" "x"
    (fun _ => rfl) rfl

/-- Counterexample to C6: for username `a:b` (containing a colon) and
password `c`, the header `Basic base64("a:b" ":" "c")` makes
`is_authenticated` return false even though the provider accepts
`("a:b", "c")` — the decoded value is split at its FIRST colon, so the
provider is called with `("a", "b:c")` instead. -/
theorem claim_C6_counterexample :
    (⟨encodeB64 (("a:b" ++ ":" ++ "c" : String).data)⟩ : String) =
      "YTpiOmM=" ∧
    afColon "a:b" "c" = true ∧
    HttpBasicAuthentication.is_authenticated ⟨"r", afColon⟩
      ⟨"GET", "", "/a", some ("Basic " ++ "YTpiOmM=")⟩ = some false :=
  ⟨by decide, by decide, by decide⟩

/-- C6 as amended: for every username containing no colon and every
password (byte strings), a request carrying
`Authorization: Basic base64(username ":" password)` returns exactly the
boolean the injected credential provider returns for that pair. -/
theorem claim_C6_basic_roundtrip (rlm : String)
    (af : String → String → Bool) (m sn pi u p : String)
    (hu : ':' ∉ u.data)
    (hb : ∀ c ∈ (u ++ ":" ++ p).data, c.toNat < 256) :
    HttpBasicAuthentication.is_authenticated ⟨rlm, af⟩
      ⟨m, sn, pi, some ("Basic " ++ ⟨encodeB64 ((u ++ ":" ++ p).data)⟩)⟩ =
      some (af u p) := by
  have hM : (u ++ ":" ++ p).data = u.data ++ ':' :: p.data := by
    rw [String.data_append, String.data_append, List.append_assoc]
    rfl
  have hdata : ("Basic " ++
      (⟨encodeB64 ((u ++ ":" ++ p).data)⟩ : String)).data =
      "Basic".data ++ ' ' :: encodeB64 ((u ++ ":" ++ p).data) := by
    rw [String.data_append]
    rfl
  have hsplit : splitFirst ' ' ("Basic " ++
      (⟨encodeB64 ((u ++ ":" ++ p).data)⟩ : String)).data =
      some ("Basic".data, encodeB64 ((u ++ ":" ++ p).data)) := by
    rw [hdata]
    exact splitFirst_append_sep ' ' "Basic".data _ (by decide)
  have hstrip : pyStrip (encodeB64 ((u ++ ":" ++ p).data)) =
      encodeB64 ((u ++ ":" ++ p).data) :=
    pyStrip_eq_self _ (encodeB64_not_space _ hb)
  have hdec : decodeB64 (encodeB64 ((u ++ ":" ++ p).data)) =
      some (u.data ++ ':' :: p.data) := by
    rw [decodeB64_encodeB64 _ hb, hM]
  have hcolon : splitFirst ':' (u.data ++ ':' :: p.data) =
      some (u.data, p.data) := splitFirst_append_sep ':' u.data p.data hu
  have hlow : pyLower "Basic".data = "basic".data := by decide
  unfold HttpBasicAuthentication.is_authenticated
  simp only [hsplit, hstrip, hdec, hcolon]
  rw [if_neg (fun hc => hc hlow)]

/-- Witness for C6 as amended, at concrete inputs: username `john`,
password `pw`, provider accepting exactly that pair. -/
theorem claim_C6_witness :
    HttpBasicAuthentication.is_authenticated
      ⟨"r", fun a b => a == "john" && b == "pw"⟩
      ⟨"GET", "", "/a",
       some ("Basic " ++
         ⟨encodeB64 ((("john" : String) ++ ":" ++ "pw").data)⟩)⟩ =
      some ((fun a b => a == "john" && b == "pw") "john" "pw") :=
  claim_C6_basic_roundtrip "r" (fun a b => a == "john" && b == "pw")
    "GET" "" "/a" "john" "pw" (by decide) (by decide)

/-- Counterexample to C7: `is_authenticated` raises (modelled `none`)
rather than returning false, both on a parameter that is not valid base64
(`xx`, incorrect padding) and on a decoded value containing no colon
(`bm9jb2xvbg==` is base64 of `nocolon`). -/
theorem claim_C7_counterexample :
    HttpBasicAuthentication.is_authenticated ⟨"r", fun _ _ => true⟩
      ⟨"GET", "", "/a", some "Basic xx"⟩ = none ∧
    HttpBasicAuthentication.is_authenticated ⟨"r", fun _ _ => true⟩
      ⟨"GET", "", "/a", some "Basic bm9jb2xvbg=="⟩ = none :=
  ⟨by decide, by decide⟩

/-- C7 as amended: when the base64 decode of the stripped parameter fails,
or when it succeeds but the decoded value contains no colon,
`is_authenticated` raises an exception to its caller (modelled `none`)
instead of returning false. -/
theorem claim_C7_basic_raises (rlm : String) (af : String → String → Bool)
    (m sn pi : String) (auth d : List Char) :
    (decodeB64 (pyStrip auth) = none →
      HttpBasicAuthentication.is_authenticated ⟨rlm, af⟩
        ⟨m, sn, pi, some ("Basic " ++ ⟨auth⟩)⟩ = none) ∧
    (decodeB64 (pyStrip auth) = some d → splitFirst ':' d = none →
      HttpBasicAuthentication.is_authenticated ⟨rlm, af⟩
        ⟨m, sn, pi, some ("Basic " ++ ⟨auth⟩)⟩ = none) := by
  have hdata : ("Basic " ++ (⟨auth⟩ : String)).data =
      "Basic".data ++ ' ' :: auth := by
    rw [String.data_append]
    rfl
  have hsplit : splitFirst ' ' ("Basic " ++ (⟨auth⟩ : String)).data =
      some ("Basic".data, auth) := by
    rw [hdata]
    exact splitFirst_append_sep ' ' "Basic".data auth (by decide)
  have hlow : pyLower "Basic".data = "basic".data := by decide
  constructor
  · intro hdec
    unfold HttpBasicAuthentication.is_authenticated
    simp only [hsplit, hdec]
    rw [if_neg (fun hc => hc hlow)]
  · intro hdec hcol
    unfold HttpBasicAuthentication.is_authenticated
    simp only [hsplit, hdec, hcol]
    rw [if_neg (fun hc => hc hlow)]

/-- Witness for C7 as amended, at the two concrete inputs of the
counterexample. -/
theorem claim_C7_witness :
    HttpBasicAuthentication.is_authenticated ⟨"r", fun _ _ => true⟩
      ⟨"GET", "", "/a", some ("Basic " ++ ⟨"xx".data⟩)⟩ = none ∧
    HttpBasicAuthentication.is_authenticated ⟨"r", fun _ _ => true⟩
      ⟨"GET", "", "/a", some ("Basic " ++ ⟨"bm9jb2xvbg==".data⟩)⟩ = none :=
  ⟨(claim_C7_basic_raises "r" (fun _ _ => true) "GET" "" "/a"
      "xx".data []).1 (by decide),
   (claim_C7_basic_raises "r" (fun _ _ => true) "GET" "" "/a"
      "bm9jb2xvbg==".data "nocolon".data).2 (by decide) (by decide)⟩
